import Mathlib

/-!
Verification of the TradingViewBinanceBot position-sizing and compounding core
(`src/app.py`), shallowly embedded in Lean 4.

Modelling conventions:
* Python floats are embedded as exact rationals (`ℚ`), reading the decimal
  literals of the source exactly (e.g. `0.02` is `2/100`).
* External effects (the Binance exchange, the Google-Sheets store) are passed
  in explicitly: reads as input parameters holding the value the call would
  return, writes as success flags plus an explicit sheet state, since every
  such call in the source is wrapped in `try/except`.
* `BOT_MEMORY` is the structure `BotMemory`; the Dashboard cells D2/H3/H4 are
  the structure `SheetCells`; the append-only trade log is a `List LogRow`.
-/

/-- The process-wide in-memory cache `BOT_MEMORY` of `src/app.py`
(keys `d2_cap`, `e2_pct`, `h4_cost`, `f2_type`). -/
structure BotMemory where
  d2_cap : ℚ
  e2_pct : ℚ
  h4_cost : ℚ
  f2_type : String
deriving DecidableEq

/-- The persisted compounding cells of the Dashboard sheet: D2 (capital),
H3 (mirror of capital), H4 (cost basis). -/
structure SheetCells where
  d2 : ℚ
  h3 : ℚ
  h4 : ℚ
deriving DecidableEq

/-- The parsed values of a `batch_get(['D2','E2','H4','F2'])` read of the
Settings Store, after `safe_float` parsing and `.upper()` of the order type
(string parsing itself is not in any claim and is not modelled). -/
structure StoreVals where
  d2 : ℚ
  e2 : ℚ
  h4 : ℚ
  f2 : String
deriving DecidableEq

/-- One trade-log row. The source row is
`[ts, symbol, side, applied_pct, sent_price, exec_price, exec_qty, status, reason, final_cap]`;
the timestamp and price/quantity columns play no part in any claim and are
elided, the claim-relevant columns are kept. -/
structure LogRow where
  symbol : String
  side : String
  status : String
  reason : String
  final_cap : ℚ
deriving DecidableEq

/-- Embedding of `update_compounding_after_trade` (src/app.py lines 105-157).
Inputs: the cache, the sheet cells, whether each of the three sequential
`sheet.update` calls succeeds (the source runs `update('D2')`,
`update('H3')`, `update('H4')` inside one `try/except: pass`, so each call
can fail independently and the first failure aborts the remaining calls —
a prefix of the writes may land), the side string, the executed quote value
`usdt_value`, the executed base quantity `coin_qty`, and `rem_bal`, the
value returned by `get_balance(base)` (the post-fill remaining base
balance).  Returns the new cache, the new sheet cells and `new_d2`. -/
def update_compounding_after_trade (mem : BotMemory) (cells : SheetCells)
    (d2Ok h3Ok h4Ok : Bool) (side : String)
    (usdt_value coin_qty rem_bal : ℚ) :
    BotMemory × SheetCells × ℚ :=
  let current_cost := mem.h4_cost
  let current_cap := mem.d2_cap
  let pair : ℚ × ℚ :=
    if side = "BUY" then
      (current_cap, current_cost + usdt_value)
    else if side = "SELL" then
      let total_held := rem_bal + coin_qty
      if 0 < total_held then
        let ratio_sold := coin_qty / total_held
        let cost_of_sold_portion := current_cost * ratio_sold
        let profit := usdt_value - cost_of_sold_portion
        let nd := current_cap + profit
        let nh := current_cost - cost_of_sold_portion
        let nh := if rem_bal < coin_qty * (2 / 100) then 0 else nh
        (nd, nh)
      else
        (current_cap, current_cost)
    else
      (current_cap, current_cost)
  let new_d2 := pair.1
  let new_h4 := pair.2
  let mem' : BotMemory := { mem with d2_cap := new_d2, h4_cost := new_h4 }
  let cells1 : SheetCells :=
    if d2Ok then { cells with d2 := new_d2 } else cells
  let cells2 : SheetCells :=
    if d2Ok && h3Ok then { cells1 with h3 := new_d2 } else cells1
  let cells3 : SheetCells :=
    if d2Ok && h3Ok && h4Ok then { cells2 with h4 := new_h4 } else cells2
  (mem', cells3, new_d2)

/-- Writing one log row, `write_log_row` (src/app.py lines 240-248): the
primary attempt computes the next free row (`max (len+1) 6`) and writes
there — on the log modelled as a list of rows this is an append; if it
raises, a single fallback `sheet.append_row` is attempted, whose own failure
propagates to the caller. -/
def write_log_row (log : List LogRow) (primaryOk appendOk : Bool)
    (row : LogRow) : Except String (List LogRow) :=
  if primaryOk then Except.ok (log ++ [row])
  else if appendOk then Except.ok (log ++ [row])
  else Except.error "append_row failed"

/-- `write_log_row` as invoked from the webhook trade path, where the
enclosing `try/except: pass` swallows any propagated failure, leaving the
log unchanged (the row is dropped). -/
def write_log_swallowed (log : List LogRow) (primaryOk appendOk : Bool)
    (row : LogRow) : List LogRow :=
  match write_log_row log primaryOk appendOk row with
  | Except.ok l => l
  | Except.error _ => log

/-- The safety fallback of the webhook trade path (src/app.py lines 282-300):
when the cached capital is the `0` sentinel, one blocking `batch_get` of the
Settings Store is performed and its parsed values are written back into
`BOT_MEMORY`; the read attempt may itself fail (`readOk = false`), in which
case the exception is caught and the zero-valued locals are kept.  Returns
the cache the rest of the request uses and the number of synchronous
settings reads performed. -/
def memory_fallback (mem : BotMemory) (store : StoreVals) (readOk : Bool) :
    BotMemory × ℕ :=
  if mem.d2_cap = 0 then
    if readOk then
      ({ d2_cap := store.d2, e2_pct := store.e2, h4_cost := store.h4,
         f2_type := store.f2 }, 1)
    else (mem, 1)
  else (mem, 0)

/-- The BUY sizing computation of the webhook (src/app.py lines 315-320):
`eff_cap = min(d2_cap, bal)`, `req_pct = data.get('PercentAmount',
data.get('percentage', e2_pct))`, `amt = eff_cap * (req_pct / 100.0)`. -/
def buy_amount (d2_cap wallet : ℚ) (percentOverride : Option ℚ)
    (e2_pct : ℚ) : ℚ :=
  min d2_cap wallet * (percentOverride.getD e2_pct / 100)

/-- The inputs of one `/webhook` request together with the values and
outcomes of every external call the handler makes, passed in explicitly. -/
structure WebhookEnv where
  /-- `data['side'].upper()` — the handler uppercases the raw side at
  entry (line 257); the model receives the uppercased value. -/
  side : String
  /-- `data['symbol']` after the handler's normalisation. -/
  symbol : String
  /-- `data.get('reason', '')`. -/
  reason : String
  /-- `data.get('PercentAmount', data.get('percentage', ...))`, parsed. -/
  percentOverride : Option ℚ
  /-- `BOT_MEMORY` at entry. -/
  mem : BotMemory
  /-- The Settings Store cells, as the fallback `batch_get` would parse them. -/
  store : StoreVals
  /-- Whether the fallback `get_sheet` + `batch_get` (lines 284-297) succeeds. -/
  fallbackReadOk : Bool
  /-- `get_balance("USDT")`. -/
  walletUSDT : ℚ
  /-- `get_balance(base)` in the SELL branch. -/
  coinBal : ℚ
  /-- Whether `client.new_order(**params)` succeeds. -/
  orderOk : Bool
  /-- The fill's `cummulativeQuoteQty`. -/
  orderQuote : ℚ
  /-- The fill's `fills[0]['qty']`. -/
  orderQty : ℚ
  /-- `get_balance(base)` inside `update_compounding_after_trade`. -/
  remBalAfterSell : ℚ
  /-- Whether `sheet = get_sheet()` at line 379 succeeds. -/
  getSheetOk : Bool
  /-- Whether the compounding `sheet.update('D2', ...)` call succeeds. -/
  compoundD2Ok : Bool
  /-- Whether the compounding `sheet.update('H3', ...)` call succeeds. -/
  compoundH3Ok : Bool
  /-- Whether the compounding `sheet.update('H4', ...)` call succeeds. -/
  compoundH4Ok : Bool
  /-- Whether `write_log_row`'s primary ranged update succeeds. -/
  logPrimaryOk : Bool
  /-- Whether the fallback `sheet.append_row` succeeds. -/
  logAppendOk : Bool
  /-- The Dashboard compounding cells at entry. -/
  sheetCells : SheetCells
  /-- The trade log at entry. -/
  sheetLog : List LogRow

/-- The observable outcome of one `/webhook` request. -/
structure WebhookResult where
  /-- The HTTP status of the response (`200` for `jsonify(resp)`,
  `500` for the error handler, matching the source's return values). -/
  http : ℕ
  /-- Whether the response is the error handler's `{"error": ...}` body. -/
  isError : Bool
  /-- Whether `client.new_order` was invoked. -/
  orderPlaced : Bool
  /-- The handler's `status` variable at response time. -/
  status : String
  /-- `BOT_MEMORY` after the request. -/
  mem : BotMemory
  /-- The compounding cells after the request. -/
  cells : SheetCells
  /-- The trade log after the request. -/
  log : List LogRow
  /-- Synchronous Settings Store reads performed for sizing (the fallback). -/
  syncReads : ℕ
deriving DecidableEq

/-- The error boundary of the handler (src/app.py lines 436-444): any
uncaught exception yields a best-effort `ERROR` log row (only when the local
`sheet` was already bound, and itself swallowed on failure) and the response
`jsonify({"error": ...}), 500`. -/
def error_result (env : WebhookEnv) (mem1 : BotMemory) (reads : ℕ)
    (placed : Bool) (sheetBound : Bool) (errMsg : String) : WebhookResult :=
  let errRow : LogRow :=
    { symbol := env.symbol, side := "ERROR", status := errMsg, reason := "",
      final_cap := 0 }
  let log' :=
    if sheetBound then
      write_log_swallowed env.sheetLog env.logPrimaryOk env.logAppendOk errRow
    else env.sheetLog
  { http := 500, isError := true, orderPlaced := placed, status := errMsg,
    mem := mem1, cells := env.sheetCells, log := log', syncReads := reads }

/-- The logging-and-compounding tail of the handler (src/app.py lines
378-434), entered with the dispatch's `status` and `resp`.  `line 379`'s
`sheet = get_sheet()` is unguarded: its failure reaches the error boundary
even when an order was already executed.  `placed` says whether `resp` is a
fill (`status` starts with `"Filled"` exactly in those branches).
The row-calculation `try` block at line 410 has no handler of its own (the
following bare `except: pass` at line 432 is the only one that can close
it), so the whole logging region is modelled as guarded by `except: pass`. -/
def after_order (env : WebhookEnv) (mem1 : BotMemory) (reads : ℕ)
    (side status : String) (placed : Bool) (sheetBoundBefore : Bool) :
    WebhookResult :=
  if env.getSheetOk then
    let usdt_value := if placed then env.orderQuote else 0
    let exec_qty : ℚ := if placed then env.orderQty else 0
    let step :=
      if placed then
        update_compounding_after_trade mem1 env.sheetCells env.compoundD2Ok
          env.compoundH3Ok env.compoundH4Ok side usdt_value exec_qty
          env.remBalAfterSell
      else (mem1, env.sheetCells, mem1.d2_cap)
    let mem2 := step.1
    let cells2 := step.2.1
    let final_cap := step.2.2
    let row : LogRow :=
      { symbol := env.symbol, side := side, status := status,
        reason := env.reason, final_cap := final_cap }
    let log2 := write_log_swallowed env.sheetLog env.logPrimaryOk
      env.logAppendOk row
    { http := 200, isError := false, orderPlaced := placed, status := status,
      mem := mem2, cells := cells2, log := log2, syncReads := reads }
  else
    error_result env mem1 reads placed sheetBoundBefore "get_sheet failed"

/-- Embedding of the `/webhook` handler's trade path (src/app.py lines
250-444) after passphrase and symbol normalisation, for MARKET orders (the
LIMIT price path differs only in quantity derivation, which no claim
touches).  Statuses carry the source's fixed prefixes; interpolated numbers
are elided. -/
def webhook_model (env : WebhookEnv) : WebhookResult :=
  let side := env.side
  let fb := memory_fallback env.mem env.store env.fallbackReadOk
  let mem1 := fb.1
  let reads := fb.2
  let sheetBound := decide (env.mem.d2_cap = 0) && env.fallbackReadOk
  if side = "BUY" then
    let amt := buy_amount mem1.d2_cap env.walletUSDT env.percentOverride
      mem1.e2_pct
    if 10 < amt then
      if env.orderOk then
        after_order env mem1 reads side "Filled/Open" true sheetBound
      else
        error_result env mem1 reads false sheetBound "new_order failed"
    else
      after_order env mem1 reads side "Skipped: Amt < 10" false sheetBound
  else if side = "SELL" then
    if env.coinBal = 0 then
      after_order env mem1 reads side "Skipped: No Coins" false sheetBound
    else if env.orderOk then
      after_order env mem1 reads side "Filled" true sheetBound
    else
      error_result env mem1 reads false sheetBound "new_order failed"
  else
    if env.getSheetOk then
      error_result env mem1 reads false true "name resp is not defined"
    else
      error_result env mem1 reads false sheetBound "get_sheet failed"

/-- One iteration of the settings-sync Task A of `background_sync_loop`
(src/app.py lines 182-203).  The loop body's very first statement,
`data = sheet.batch_get(['D2', 'E2', 'F2'])`, evaluates the name `sheet`,
which is bound nowhere in scope (no local assignment, no module-level
global of that name), so every iteration raises `NameError` before reading
anything; the `except` at line 200 catches it and records `last_error`.
The store values the iteration would have read are passed in to show they
are never consulted. -/
def background_sync_iteration (mem : BotMemory) (_lastError : Option String)
    (_store : StoreVals) : BotMemory × Option String :=
  (mem, some "Sync Failed: name sheet is not defined")

/-- A concrete webhook request used to instantiate the theorems: a BUY
signal for the full capital against a warm cache (`d2_cap = 1000`), a
1000 USDT wallet, and every external call succeeding. -/
def demoEnv : WebhookEnv :=
  { side := "BUY", symbol := "BTCUSDT", reason := "tv signal",
    percentOverride := some 100, mem := ⟨1000, 100, 0, "MARKET"⟩,
    store := ⟨0, 0, 0, "MARKET"⟩, fallbackReadOk := true,
    walletUSDT := 1000, coinBal := 0, orderOk := true, orderQuote := 999,
    orderQty := 1 / 100, remBalAfterSell := 0, getSheetOk := true,
    compoundD2Ok := true, compoundH3Ok := true, compoundH4Ok := true,
    logPrimaryOk := true, logAppendOk := true,
    sheetCells := ⟨0, 0, 0⟩, sheetLog := [] }

/-- `demoEnv` with requested percent 0.8, so the computed amount is 8 —
the spec's below-minimum scenario. -/
def demoEnvSkip : WebhookEnv := { demoEnv with percentOverride := some (8 / 10) }

/-- `demoEnvSkip` with the `get_sheet()` call at the logging step failing. -/
def demoEnvSkipNoSheet : WebhookEnv := { demoEnvSkip with getSheetOk := false }

/-- `demoEnvSkip` with both log-write attempts failing. -/
def demoEnvSkipNoLog : WebhookEnv :=
  { demoEnvSkip with logPrimaryOk := false, logAppendOk := false }

/-- C1 counterexample: the claim's unconditional SELL update
`costBasis' = costBasis - costBasis * (q / totalHeldBeforeSell)` fails on
the code's dust cleanup.  At `costBasis = 50`, `q = 100`, `r = 1` we have
`totalHeldBeforeSell = 101 > 0` but `r < q * 0.02`, so the code forces the
new cost basis to `0`, while the claimed formula gives `50/101`. -/
theorem compounding_dust_sell_deviates :
    (update_compounding_after_trade ⟨0, 100, 50, "MARKET"⟩ ⟨0, 0, 0⟩ true true true
        "SELL" 0 100 1).1.h4_cost
      ≠ 50 - 50 * (100 / (1 + 100)) := by
  simp only [update_compounding_after_trade, String.reduceEq, reduceIte]
  norm_num

/-- C1 (amended): the Compounding Engine's fill transition.  On BUY,
`costBasis' = costBasis + v` and capital is unchanged.  On SELL with
`totalHeldBeforeSell = r + q ≤ 0`, capital and costBasis are unchanged.
Otherwise `capital' = capital + (v - costBasis * (q / (r + q)))`, and
`costBasis' = costBasis - costBasis * (q / (r + q))` — except that when
`r < q * 0.02` (the code's dust threshold) `costBasis'` is forced to `0`.
In particular a SELL with `r = 0 < q` gives
`capital' = capital + (v - costBasis)` and `costBasis' = 0`. -/
theorem compounding_fill_transition (mem : BotMemory) (cells : SheetCells)
    (d2Ok h3Ok h4Ok : Bool) (v q r : ℚ) :
    (update_compounding_after_trade mem cells d2Ok h3Ok h4Ok "BUY" v q r).1.d2_cap
      = mem.d2_cap ∧
    (update_compounding_after_trade mem cells d2Ok h3Ok h4Ok "BUY" v q r).1.h4_cost
      = mem.h4_cost + v ∧
    (r + q ≤ 0 →
      (update_compounding_after_trade mem cells d2Ok h3Ok h4Ok "SELL" v q r).1.d2_cap
        = mem.d2_cap ∧
      (update_compounding_after_trade mem cells d2Ok h3Ok h4Ok "SELL" v q r).1.h4_cost
        = mem.h4_cost) ∧
    (0 < r + q →
      (update_compounding_after_trade mem cells d2Ok h3Ok h4Ok "SELL" v q r).1.d2_cap
        = mem.d2_cap + (v - mem.h4_cost * (q / (r + q)))) ∧
    (0 < r + q → ¬ r < q * (2 / 100) →
      (update_compounding_after_trade mem cells d2Ok h3Ok h4Ok "SELL" v q r).1.h4_cost
        = mem.h4_cost - mem.h4_cost * (q / (r + q))) ∧
    (0 < r + q → r < q * (2 / 100) →
      (update_compounding_after_trade mem cells d2Ok h3Ok h4Ok "SELL" v q r).1.h4_cost
        = 0) ∧
    (r = 0 → 0 < q →
      (update_compounding_after_trade mem cells d2Ok h3Ok h4Ok "SELL" v q r).1.d2_cap
        = mem.d2_cap + (v - mem.h4_cost) ∧
      (update_compounding_after_trade mem cells d2Ok h3Ok h4Ok "SELL" v q r).1.h4_cost
        = 0) := by
  simp only [update_compounding_after_trade, String.reduceEq, reduceIte]
  refine ⟨trivial, trivial, ?_, ?_, ?_, ?_, ?_⟩
  · intro h
    rw [if_neg (by linarith)]
    exact ⟨rfl, rfl⟩
  · intro h
    rw [if_pos h]
  · intro h hd
    rw [if_pos h, if_neg hd]
  · intro h hd
    rw [if_pos h, if_pos hd]
  · intro hr hq
    subst hr
    have h : (0 : ℚ) < 0 + q := by linarith
    have hd : (0 : ℚ) < q * (2 / 100) := by nlinarith
    rw [if_pos h, if_pos hd]
    refine ⟨?_, rfl⟩
    simp [div_self (ne_of_gt hq)]

/-- C1 witness: the spec's own end-to-end scenario — capital 1000, cost
basis 500, a SELL of the whole 100-unit holding for 600 gives capital 1100
and cost basis 0. -/
theorem compounding_fill_transition_witness :
    (update_compounding_after_trade ⟨1000, 100, 500, "MARKET"⟩ ⟨0, 0, 0⟩
        true true true "SELL" 600 100 0).1.d2_cap = 1100 ∧
    (update_compounding_after_trade ⟨1000, 100, 500, "MARKET"⟩ ⟨0, 0, 0⟩
        true true true "SELL" 600 100 0).1.h4_cost = 0 := by
  obtain ⟨-, -, -, -, -, -, h⟩ :=
    compounding_fill_transition ⟨1000, 100, 500, "MARKET"⟩ ⟨0, 0, 0⟩ true true true
      600 100 0
  obtain ⟨h1, h2⟩ := h rfl (by norm_num)
  refine ⟨?_, h2⟩
  rw [h1]; norm_num

/-- C7: a SELL with `totalHeldBeforeSell > 0` whose post-fill remaining
balance is below `0.01 * q` forces the new cost basis to exactly `0`
(the code's threshold is the laxer `0.02 * q`, which the claimed `0.01 * q`
implies once `q > 0`, itself forced by `0 < r + q` and `r < q * 0.01`). -/
theorem dust_cleanup_forces_zero (mem : BotMemory) (cells : SheetCells)
    (d2Ok h3Ok h4Ok : Bool) (v q r : ℚ) (htot : 0 < r + q)
    (hdust : r < q * (1 / 100)) :
    (update_compounding_after_trade mem cells d2Ok h3Ok h4Ok "SELL" v q r).1.h4_cost
      = 0 := by
  have hq : 0 < q := by nlinarith
  have hd : r < q * (2 / 100) := by nlinarith
  simp only [update_compounding_after_trade, String.reduceEq, reduceIte]
  rw [if_pos htot, if_pos hd]

/-- C7 witness: selling 100 units and leaving a remaining balance of 0.005
(below 0.01 * 100 = 1) zeroes the cost basis. -/
theorem dust_cleanup_forces_zero_witness :
    (update_compounding_after_trade ⟨1000, 100, 500, "MARKET"⟩ ⟨0, 0, 0⟩
        true true true "SELL" 600 100 (5 / 1000)).1.h4_cost = 0 :=
  dust_cleanup_forces_zero ⟨1000, 100, 500, "MARKET"⟩ ⟨0, 0, 0⟩ true true true 600 100
    (5 / 1000) (by norm_num) (by norm_num)

/-- C3 counterexample: there is no durable write queue.  A trade-log row
whose primary write and fallback append both fail is dropped: it is in no
component of the resulting program state and nothing retries it, refuting
"never dropped, retried on the same head entry".  The compounding persist
is likewise unqueued and not even atomic: with all three cell writes
failing the store is untouched, and with only the first (D2) write
succeeding the store is left partially updated — capital 100 written while
H4 keeps the stale 1 instead of the new cost basis 90 — with no pending
entry recorded anywhere in the returned state. -/
theorem no_durable_write_queue_counterexample :
    (¬ ∀ (log : List LogRow) (p a : Bool) (row : LogRow),
        row ∈ write_log_swallowed log p a row) ∧
    (update_compounding_after_trade ⟨100, 100, 50, "MARKET"⟩ ⟨1, 1, 1⟩
        false false false "BUY" 40 0 0).2.1 = ⟨1, 1, 1⟩ ∧
    (update_compounding_after_trade ⟨100, 100, 50, "MARKET"⟩ ⟨1, 1, 1⟩
        true false false "BUY" 40 0 0).2.1 = ⟨100, 1, 1⟩ ∧
    (update_compounding_after_trade ⟨100, 100, 50, "MARKET"⟩ ⟨1, 1, 1⟩
        true false false "BUY" 40 0 0).1.h4_cost = 90 := by
  refine ⟨?_, ?_, ?_, ?_⟩
  · intro h
    have hmem := h [] false false ⟨"BTCUSDT", "BUY", "Filled/Open", "", 1000⟩
    simp [write_log_swallowed, write_log_row] at hmem
  · simp only [update_compounding_after_trade, String.reduceEq, reduceIte]
    rfl
  · simp only [update_compounding_after_trade, String.reduceEq, reduceIte]
    rfl
  · simp only [update_compounding_after_trade, String.reduceEq, reduceIte]
    norm_num

/-- C3 (amended): persistence on the trade path is synchronous,
single-attempt and non-atomic.  The three compounding cell writes (D2, H3,
H4) run in order inside one `try/except: pass`: the first failing write
aborts the remaining ones and is swallowed, so the store receives exactly
a prefix of the three writes — nothing on a D2 failure, only the new
capital on an H3 failure, capital and its mirror but a stale cost basis on
an H4 failure, and all three values on success; the lost writes are never
retried (the in-memory state is still updated, and a later successful
persist writes the then-current absolute values).  A trade-log row is
written once, with a single immediate fallback append; if both attempts
fail the row is dropped and the failure swallowed. -/
theorem persistence_single_attempt (mem : BotMemory) (cells : SheetCells)
    (side : String) (v q r : ℚ) (d2Ok h3Ok h4Ok a : Bool)
    (log : List LogRow) (row : LogRow) :
    (update_compounding_after_trade mem cells d2Ok h3Ok h4Ok side v q r).1
      = (update_compounding_after_trade mem cells true true true side
          v q r).1 ∧
    (update_compounding_after_trade mem cells false h3Ok h4Ok side v q
        r).2.1 = cells ∧
    (update_compounding_after_trade mem cells true false h4Ok side v q
        r).2.1
      = { cells with
          d2 := (update_compounding_after_trade mem cells true false h4Ok
            side v q r).2.2 } ∧
    (update_compounding_after_trade mem cells true true false side v q
        r).2.1
      = { cells with
          d2 := (update_compounding_after_trade mem cells true true false
            side v q r).2.2,
          h3 := (update_compounding_after_trade mem cells true true false
            side v q r).2.2 } ∧
    (update_compounding_after_trade mem cells true true true side v q
        r).2.1
      = { d2 := (update_compounding_after_trade mem cells true true true
            side v q r).1.d2_cap,
          h3 := (update_compounding_after_trade mem cells true true true
            side v q r).1.d2_cap,
          h4 := (update_compounding_after_trade mem cells true true true
            side v q r).1.h4_cost } ∧
    write_log_swallowed log true a row = log ++ [row] ∧
    write_log_swallowed log false true row = log ++ [row] ∧
    write_log_swallowed log false false row = log := by
  refine ⟨rfl, rfl, rfl, rfl, rfl, ?_, ?_, ?_⟩ <;>
    simp [write_log_swallowed, write_log_row]

/-- A log write whose primary attempt or fallback append succeeds appends
the row. -/
theorem write_log_swallowed_append (log : List LogRow) (p a : Bool)
    (row : LogRow) (h : p = true ∨ a = true) :
    write_log_swallowed log p a row = log ++ [row] := by
  rcases h with h | h
  · subst h; simp [write_log_swallowed, write_log_row]
  · subst h; cases p <;> simp [write_log_swallowed, write_log_row]

/-- C9: the Background Refresher's settings sync never populates the cache.
Every iteration of Task A leaves `BOT_MEMORY` exactly as it was — in
particular `d2_cap` and `e2_pct` are never read from the Settings Store —
and records a sync failure, because the loop body's first statement
references the unbound name `sheet` and raises `NameError` each time. -/
theorem background_sync_never_populates (mem : BotMemory)
    (lastError : Option String) (store : StoreVals) :
    (background_sync_iteration mem lastError store).1 = mem ∧
    (background_sync_iteration mem lastError store).1.d2_cap = mem.d2_cap ∧
    (background_sync_iteration mem lastError store).1.e2_pct = mem.e2_pct ∧
    (background_sync_iteration mem lastError store).2
      = some "Sync Failed: name sheet is not defined" :=
  ⟨rfl, rfl, rfl, rfl⟩

/-- C10: an authorized request whose uppercased side is neither BUY nor
SELL places no order and ends in the error handler with an HTTP 500 error
response (the handler's `resp` variable is only assigned in the BUY and
SELL branches, so the logging tail raises `NameError` — or `get_sheet`
fails first; either way the error boundary answers). -/
theorem unknown_side_error_response (env : WebhookEnv)
    (h1 : env.side ≠ "BUY") (h2 : env.side ≠ "SELL") :
    (webhook_model env).orderPlaced = false ∧
    (webhook_model env).http = 500 ∧
    (webhook_model env).isError = true := by
  unfold webhook_model error_result
  rw [if_neg h1, if_neg h2]
  by_cases hg : env.getSheetOk = true
  · rw [if_pos hg]; exact ⟨rfl, rfl, rfl⟩
  · rw [if_neg hg]; exact ⟨rfl, rfl, rfl⟩

/-- C10 witness: a HOLD signal yields a 500 error and no order. -/
theorem unknown_side_error_response_witness :
    (webhook_model { demoEnv with side := "HOLD" }).orderPlaced = false ∧
    (webhook_model { demoEnv with side := "HOLD" }).http = 500 :=
  ⟨(unknown_side_error_response { demoEnv with side := "HOLD" } (by decide)
      (by decide)).1,
   (unknown_side_error_response { demoEnv with side := "HOLD" } (by decide)
      (by decide)).2.1⟩

/-- C4 counterexample: a persistence failure after order execution does
change the trade response.  With a filled BUY whose `get_sheet()` at the
logging step fails, the handler answers HTTP 500 / error although the
exchange order succeeded; the identical request with `get_sheet`
succeeding answers HTTP 200. -/
theorem sheet_failure_changes_response :
    (webhook_model { demoEnv with getSheetOk := false }).orderPlaced
      = true ∧
    (webhook_model { demoEnv with getSheetOk := false }).http = 500 ∧
    (webhook_model { demoEnv with getSheetOk := false }).isError = true ∧
    (webhook_model demoEnv).orderPlaced = true ∧
    (webhook_model demoEnv).http = 200 ∧
    (webhook_model demoEnv).isError = false := by
  refine ⟨?_, ?_, ?_, ?_, ?_, ?_⟩ <;>
    norm_num [webhook_model, demoEnv, after_order, error_result,
      memory_fallback, buy_amount]

/-- C4 (amended): for a filled order, failures of the compounding cell
writes and of the log-row writes (the three compound flags, `logPrimaryOk`,
`logAppendOk` are arbitrary here) are swallowed and the response is the
gateway result (HTTP 200); but a failure of the unguarded
`sheet = get_sheet()` after order execution turns the response into an
HTTP 500 error even though the order was executed. -/
theorem response_persistence_policy (env : WebhookEnv)
    (horder : env.orderOk = true)
    (hfill :
      (env.side = "BUY" ∧
        10 < buy_amount (memory_fallback env.mem env.store
            env.fallbackReadOk).1.d2_cap env.walletUSDT env.percentOverride
          (memory_fallback env.mem env.store env.fallbackReadOk).1.e2_pct) ∨
      (env.side = "SELL" ∧ ¬ env.coinBal = 0)) :
    (env.getSheetOk = true →
      (webhook_model env).http = 200 ∧
      (webhook_model env).isError = false ∧
      (webhook_model env).orderPlaced = true) ∧
    (env.getSheetOk = false →
      (webhook_model env).http = 500 ∧
      (webhook_model env).isError = true ∧
      (webhook_model env).orderPlaced = true) := by
  rcases hfill with ⟨hs, ha⟩ | ⟨hs, hc⟩
  · unfold webhook_model after_order error_result
    rw [hs, if_pos rfl, if_pos ha, if_pos horder]
    constructor
    · intro hg
      rw [if_pos hg]
      exact ⟨rfl, rfl, rfl⟩
    · intro hg
      rw [if_neg (by simp [hg])]
      exact ⟨rfl, rfl, rfl⟩
  · unfold webhook_model after_order error_result
    rw [hs, if_neg (by decide), if_pos rfl, if_neg hc, if_pos horder]
    constructor
    · intro hg
      rw [if_pos hg]
      exact ⟨rfl, rfl, rfl⟩
    · intro hg
      rw [if_neg (by simp [hg])]
      exact ⟨rfl, rfl, rfl⟩

/-- C4 witness: the demo BUY with all persistence succeeding answers 200
with the order placed. -/
theorem response_persistence_policy_witness :
    (webhook_model demoEnv).http = 200 ∧
    (webhook_model demoEnv).isError = false ∧
    (webhook_model demoEnv).orderPlaced = true :=
  (response_persistence_policy demoEnv rfl
    (Or.inl ⟨rfl, by norm_num [buy_amount, memory_fallback, demoEnv]⟩)).1 rfl

/-- C5 counterexample: there is no 0.999 safety clamp.  With capital 1000,
wallet 1000 and requested percent 100 (which is `>= 99.9`), the computed
amount is the full 1000, exceeding `effectiveCap * 0.999 = 999`. -/
theorem no_safety_clamp_counterexample :
    buy_amount 1000 1000 (some 100) 100 = 1000 ∧
    (999 / 10 : ℚ) ≤ 100 ∧
    ¬ buy_amount 1000 1000 (some 100) 100 ≤ 1000 * (999 / 1000) := by
  norm_num [buy_amount]

/-- C5 (amended): the BUY order amount is exactly
`min(cached capital, wallet USDT) * requestedPercent / 100` with
`requestedPercent` the signal override or else the cached percent, and no
further clamp; the webhook places the order exactly when this amount
exceeds 10. -/
theorem buy_sizing_formula (env : WebhookEnv) (hside : env.side = "BUY") :
    buy_amount (memory_fallback env.mem env.store
        env.fallbackReadOk).1.d2_cap env.walletUSDT env.percentOverride
      (memory_fallback env.mem env.store env.fallbackReadOk).1.e2_pct
      = min (memory_fallback env.mem env.store
            env.fallbackReadOk).1.d2_cap env.walletUSDT
        * (env.percentOverride.getD
            (memory_fallback env.mem env.store env.fallbackReadOk).1.e2_pct
           / 100) ∧
    (10 < buy_amount (memory_fallback env.mem env.store
        env.fallbackReadOk).1.d2_cap env.walletUSDT env.percentOverride
      (memory_fallback env.mem env.store env.fallbackReadOk).1.e2_pct →
      env.orderOk = true → (webhook_model env).orderPlaced = true) ∧
    (buy_amount (memory_fallback env.mem env.store
        env.fallbackReadOk).1.d2_cap env.walletUSDT env.percentOverride
      (memory_fallback env.mem env.store env.fallbackReadOk).1.e2_pct
        ≤ 10 →
      (webhook_model env).orderPlaced = false) := by
  refine ⟨rfl, ?_, ?_⟩
  · intro ha ho
    unfold webhook_model after_order error_result
    rw [hside, if_pos rfl, if_pos ha, if_pos ho]
    by_cases hg : env.getSheetOk = true
    · rw [if_pos hg]
    · rw [if_neg hg]
  · intro ha
    unfold webhook_model after_order error_result
    rw [hside, if_pos rfl, if_neg (not_lt.mpr ha)]
    by_cases hg : env.getSheetOk = true
    · rw [if_pos hg]
    · rw [if_neg hg]

/-- C5 witness: the demo BUY (amount 1000 > 10) places the order. -/
theorem buy_sizing_formula_witness :
    (webhook_model demoEnv).orderPlaced = true :=
  (buy_sizing_formula demoEnv rfl).2.1
    (by norm_num [buy_amount, memory_fallback, demoEnv]) rfl

/-- C6 counterexample: the "success-shaped response and a log row" part of
the claim fails under persistence failures the claim quantifies over.  A
BUY with computed amount 8 whose `get_sheet()` fails yields an HTTP 500
error response (not a Skipped success) and no log row; the same request
with the sheet open but both log-write attempts failing answers 200 with
the row dropped.  In both runs no order is placed. -/
theorem skip_persistence_failure_counterexample :
    (webhook_model demoEnvSkipNoSheet).http = 500 ∧
    (webhook_model demoEnvSkipNoSheet).isError = true ∧
    (webhook_model demoEnvSkipNoSheet).orderPlaced = false ∧
    (webhook_model demoEnvSkipNoSheet).log = [] ∧
    (webhook_model demoEnvSkipNoLog).http = 200 ∧
    (webhook_model demoEnvSkipNoLog).log = [] := by
  refine ⟨?_, ?_, ?_, ?_, ?_, ?_⟩ <;>
    norm_num [webhook_model, demoEnv, demoEnvSkip, demoEnvSkipNoSheet,
      demoEnvSkipNoLog, after_order, error_result, memory_fallback,
      buy_amount, write_log_swallowed, write_log_row]

/-- C6 (amended): a BUY whose computed amount is `<= 10` never places an
order; when the sheet handle is obtained and at least one log-write
attempt succeeds, the outcome is the Skipped result as a success-shaped
HTTP 200 response (not an error) with a log row recording the skip
reason; when the sheet opens but both log-write attempts fail, the
response is still the 200 Skipped result but the row is dropped; and when
`get_sheet()` fails, the response degrades to an HTTP 500 error. -/
theorem small_amount_skip (env : WebhookEnv)
    (hside : env.side = "BUY")
    (hamt : buy_amount (memory_fallback env.mem env.store
        env.fallbackReadOk).1.d2_cap env.walletUSDT env.percentOverride
      (memory_fallback env.mem env.store env.fallbackReadOk).1.e2_pct
        ≤ 10) :
    (webhook_model env).orderPlaced = false ∧
    (env.getSheetOk = true →
      env.logPrimaryOk = true ∨ env.logAppendOk = true →
      (webhook_model env).http = 200 ∧
      (webhook_model env).isError = false ∧
      (webhook_model env).status = "Skipped: Amt < 10" ∧
      (webhook_model env).log = env.sheetLog ++
        [{ symbol := env.symbol, side := "BUY",
           status := "Skipped: Amt < 10", reason := env.reason,
           final_cap := (memory_fallback env.mem env.store
             env.fallbackReadOk).1.d2_cap }]) ∧
    (env.getSheetOk = true → env.logPrimaryOk = false →
      env.logAppendOk = false →
      (webhook_model env).http = 200 ∧
      (webhook_model env).isError = false ∧
      (webhook_model env).log = env.sheetLog) ∧
    (env.getSheetOk = false →
      (webhook_model env).http = 500 ∧
      (webhook_model env).isError = true) := by
  have hn := not_lt.mpr hamt
  unfold webhook_model after_order error_result
  rw [hside, if_pos rfl, if_neg hn]
  refine ⟨?_, ?_, ?_, ?_⟩
  · by_cases hg : env.getSheetOk = true
    · rw [if_pos hg]
    · rw [if_neg hg]
  · intro hg hlog
    rw [if_pos hg]
    refine ⟨rfl, rfl, rfl, ?_⟩
    simp [write_log_swallowed_append _ _ _ _ hlog]
  · intro hg hp ha
    rw [if_pos hg]
    refine ⟨rfl, rfl, ?_⟩
    simp [hp, ha, write_log_swallowed, write_log_row]
  · intro hg
    rw [if_neg (by simp [hg])]
    exact ⟨rfl, rfl⟩

/-- C6 witness: the spec's scenario — computed amount 8 (percent 0.8 of a
1000 effective cap) is below 10, so the order is skipped with a 200
response. -/
theorem small_amount_skip_witness :
    (webhook_model demoEnvSkip).orderPlaced = false ∧
    (webhook_model demoEnvSkip).http = 200 :=
  ⟨(small_amount_skip demoEnvSkip rfl
      (by norm_num [buy_amount, memory_fallback, demoEnv, demoEnvSkip])).1,
   ((small_amount_skip demoEnvSkip rfl
      (by norm_num [buy_amount, memory_fallback, demoEnv, demoEnvSkip])).2.1
      rfl (Or.inl rfl)).1⟩

/-- The logging tail never performs a sizing store read: it answers with
the read count it was handed. -/
theorem after_order_syncReads (env : WebhookEnv) (mem1 : BotMemory)
    (reads : ℕ) (side status : String) (placed sb : Bool) :
    (after_order env mem1 reads side status placed sb).syncReads = reads := by
  unfold after_order error_result
  by_cases hg : env.getSheetOk = true
  · rw [if_pos hg]
  · rw [if_neg hg]

/-- The webhook's only synchronous sizing read of the Settings Store is
the `capital == 0` fallback's. -/
theorem webhook_model_syncReads (env : WebhookEnv) :
    (webhook_model env).syncReads
      = (memory_fallback env.mem env.store env.fallbackReadOk).2 := by
  simp only [webhook_model]
  split_ifs <;> first
    | exact after_order_syncReads _ _ _ _ _ _ _
    | rfl

/-- C8: the State Cache staleness fallback.  (1) With cached capital `0`
and a succeeding store read, the trade path performs exactly one
synchronous settings read and writes the read capital, percent, cost basis
and order type into the cache; (2) with cached capital nonzero no
synchronous settings read happens; (3) the webhook performs no sizing
store read other than the fallback's; (4) after a fallback that read a
nonzero capital, a second signal's fallback performs no read and leaves
the populated cache as is; (5) hence any request arriving with a nonzero
cached capital performs zero synchronous sizing reads. -/
theorem cache_fallback_single_read :
    (∀ (mem : BotMemory) (store : StoreVals), mem.d2_cap = 0 →
      memory_fallback mem store true
        = ({ d2_cap := store.d2, e2_pct := store.e2, h4_cost := store.h4,
             f2_type := store.f2 }, 1)) ∧
    (∀ (mem : BotMemory) (store : StoreVals) (readOk : Bool),
      mem.d2_cap ≠ 0 → memory_fallback mem store readOk = (mem, 0)) ∧
    (∀ env : WebhookEnv,
      (webhook_model env).syncReads
        = (memory_fallback env.mem env.store env.fallbackReadOk).2) ∧
    (∀ (mem : BotMemory) (store store' : StoreVals) (readOk' : Bool),
      mem.d2_cap = 0 → store.d2 ≠ 0 →
      memory_fallback (memory_fallback mem store true).1 store' readOk'
        = ((memory_fallback mem store true).1, 0)) ∧
    (∀ env : WebhookEnv, env.mem.d2_cap ≠ 0 →
      (webhook_model env).syncReads = 0) := by
  refine ⟨?_, ?_, ?_, ?_, ?_⟩
  · intro mem store h
    simp [memory_fallback, h]
  · intro mem store readOk h
    simp [memory_fallback, h]
  · intro env
    exact webhook_model_syncReads env
  · intro mem store store' readOk' h hz
    simp [memory_fallback, h, hz]
  · intro env h
    rw [webhook_model_syncReads env]
    simp [memory_fallback, h]

/-- C8 witness: a cold cache (capital 0) is populated from the store in
one read, and the next fallback with the populated cache reads nothing. -/
theorem cache_fallback_single_read_witness :
    memory_fallback ⟨0, 100, 0, "MARKET"⟩ ⟨1000, 50, 7, "LIMIT"⟩ true
      = (⟨1000, 50, 7, "LIMIT"⟩, 1) ∧
    memory_fallback
        (memory_fallback ⟨0, 100, 0, "MARKET"⟩ ⟨1000, 50, 7, "LIMIT"⟩
          true).1 ⟨2000, 60, 8, "MARKET"⟩ true
      = ((memory_fallback ⟨0, 100, 0, "MARKET"⟩ ⟨1000, 50, 7, "LIMIT"⟩
          true).1, 0) :=
  ⟨cache_fallback_single_read.1 ⟨0, 100, 0, "MARKET"⟩ ⟨1000, 50, 7, "LIMIT"⟩
     rfl,
   cache_fallback_single_read.2.2.2.1 ⟨0, 100, 0, "MARKET"⟩
     ⟨1000, 50, 7, "LIMIT"⟩ ⟨2000, 60, 8, "MARKET"⟩ true rfl
     (by norm_num)⟩
